import Mathlib

/-! Shallow embedding of the store admin configuration (store/admin.py) and of
the order-created signal handler (core/signals/handlers.py), with theorems
checking the specification claims. Query sets are embedded as Lists of rows,
the messages framework as a record of text and numeric severity level, and the
print-based handler as a function returning the lines written to stdout. -/

/-- A row of the Product table, with the fields the admin code touches. -/
structure Product where
  id : Nat
  title : String
  slug : String
  unit_price : Int
  inventory : Int
  collection_id : Nat
  deriving DecidableEq

/-- A row of the Collection table. -/
structure Collection where
  id : Nat
  title : String
  deriving DecidableEq

/-- A row of the Customer table. -/
structure Customer where
  id : Nat
  first_name : String
  last_name : String
  membership : String
  deriving DecidableEq

/-- A row of the Order table. -/
structure Order where
  id : Nat
  customer_id : Nat
  payment_status : String
  deriving DecidableEq

/-- A row of the OrderItem table. -/
structure OrderItem where
  id : Nat
  order_id : Nat
  product_id : Nat
  quantity : Nat
  deriving DecidableEq

/-- The database state seen by the admin site. -/
structure Db where
  collections : List Collection
  products : List Product
  customers : List Customer
  orders : List Order
  order_items : List OrderItem
  deriving DecidableEq

/-- Severity level SUCCESS of the messages framework. -/
def messages.SUCCESS : Nat := 25

/-- Severity level ERROR of the messages framework. -/
def messages.ERROR : Nat := 40

/-- A message recorded by message_user: its text and its severity level. -/
structure UserMessage where
  text : String
  level : Nat
  deriving DecidableEq

/-- The inventory_status display column of ProductAdmin: Low when the
inventory of the product is below 10, OK otherwise. -/
def ProductAdmin.inventory_status (product : Product) : String :=
  if product.inventory < 10 then "Low" else "OK"

/-- The Clear Inventory bulk action of ProductAdmin. The selected rows are
those whose id is in the selection; quaryset.update sets inventory to 0 on
them and returns the number of rows it touched, then message_user records the
count at level messages.ERROR. The result is the updated table, the updated
count, and the recorded message. -/
def ProductAdmin.clear_inventory (db : List Product) (selected : List Nat) :
    List Product × Nat × UserMessage :=
  let updated_count := db.countP (fun p => selected.contains p.id)
  ( db.map (fun p => if selected.contains p.id then { p with inventory := 0 } else p)
  , updated_count
  , { text := s!"{updated_count} products were successfully updated."
    , level := messages.ERROR } )

/-- The lookups of InventoryFilter: the single choice with value string <10
and title Low. -/
def InventoryFilter.lookups : List (String × String) := [("<10", "Low")]

/-- The queryset method of InventoryFilter: when the selected value is the
string <10 it returns the queryset restricted to inventory below 10, and in
every other case it falls off the end of the function and returns None. -/
def InventoryFilter.queryset (value : Option String) (qs : List Product) :
    Option (List Product) :=
  if value = some "<10" then some (qs.filter (fun p => p.inventory < 10)) else none

/-- The framework keeps the full queryset when a list filter returns None. -/
def InventoryFilter.effective (value : Option String) (qs : List Product) :
    List Product :=
  (InventoryFilter.queryset value qs).getD qs

/-- get_queryset of CollectionAdmin: each collection row comes out carrying
products_count, the grouped Count over the join keys, that is the number of
rows among the collection ids of all products that match this collection. -/
def CollectionAdmin.get_queryset (db : Db) : List (Collection × Nat) :=
  db.collections.map (fun c =>
    (c, ((db.products.map Product.collection_id).filter (fun k => k == c.id)).length))

/-- get_queryset of CustomerAdmin: each customer row comes out carrying
orders_count, the grouped Count over the join keys of the related orders. -/
def CustomerAdmin.get_queryset (db : Db) : List (Customer × Nat) :=
  db.customers.map (fun c =>
    (c, ((db.orders.map Order.customer_id).filter (fun k => k == c.id)).length))

/-- The true number of products related to a collection: the number of
product rows whose collection id is the id of this collection. -/
def true_products_count (db : Db) (c : Collection) : Nat :=
  (db.products.filter (fun p => p.collection_id == c.id)).length

/-- The true number of orders related to a customer: the number of order rows
whose customer id is the id of this customer. -/
def true_orders_count (db : Db) (c : Customer) : Nat :=
  (db.orders.filter (fun o => o.customer_id == c.id)).length

/-- One uppercase-hex digit character, for percent escapes. -/
def hexDigit (n : Nat) : Char :=
  if n < 10 then Char.ofNat (48 + n) else Char.ofNat (55 + n)

/-- quote_plus on one character, as urlencode applies it: letters, digits and
the characters _ . - ~ pass through, a space becomes a plus, and anything else
becomes a percent escape (the inputs here are ASCII). -/
def quote_plus_char (c : Char) : String :=
  if c.isAlphanum || c = '_' || c = '.' || c = '-' || c = '~' then String.singleton c
  else if c = ' ' then "+"
  else String.mk ['%', hexDigit (c.toNat / 16 % 16), hexDigit (c.toNat % 16)]

/-- quote_plus on a string: each character quoted in place. -/
def quote_plus (s : String) : String :=
  String.join (s.data.map quote_plus_char)

/-- urlencode on a dict given as key-value pairs. -/
def urlencode (pairs : List (String × String)) : String :=
  String.intercalate "&" (pairs.map (fun kv => quote_plus kv.1 ++ "=" ++ quote_plus kv.2))

/-- Modelled framework routing: reverse of admin:store_product_changelist. -/
def reverse_store_product_changelist : String := "/admin/store/product/"

/-- Modelled framework routing: reverse of admin:store_order_changelist. -/
def reverse_store_order_changelist : String := "/admin/store/order/"

/-- format_html applied to the anchor template used by both count columns. -/
def format_html_link (url text : String) : String :=
  "<a href=\"" ++ url ++ "\">" ++ text ++ "</a>"

/-- The products_count display column of CollectionAdmin on an annotated row:
a link to the product changelist carrying the urlencoded collection_id of this
collection, whose visible text is the annotated count. -/
def CollectionAdmin.products_count (row : Collection × Nat) : String :=
  format_html_link
    (reverse_store_product_changelist ++ "?" ++
      urlencode [("collection_id", Nat.repr row.1.id)])
    (Nat.repr row.2)

/-- The orders_count display column of CustomerAdmin on an annotated row:
a link to the order changelist carrying the urlencoded customer_id of this
customer, whose visible text is the annotated count. -/
def CustomerAdmin.orders_count (row : Customer × Nat) : String :=
  format_html_link
    (reverse_store_order_changelist ++ "?" ++
      urlencode [("customer_id", Nat.repr row.1.id)])
    (Nat.repr row.2)

/-- A Python exception surfaced by the embedded handler. -/
inductive PyError where
  | keyError (key : String)
  deriving DecidableEq

/-- The on_order_created receiver: it prints the order entry of kwargs to
standard output. The kwargs dict is a list of key-value pairs; the ok result
is the list of values printed to stdout, and a missing order key surfaces the
KeyError of the unguarded dict lookup. -/
def on_order_created {α : Type} (kwargs : List (String × α)) :
    Except PyError (List α) :=
  match kwargs.lookup "order" with
  | some v => Except.ok [v]
  | none => Except.error (PyError.keyError "order")

/-- min_num of OrderItemInline. -/
def OrderItemInline.min_num : Nat := 1

/-- max_num of OrderItemInline. -/
def OrderItemInline.max_num : Nat := 10

/-- extra of OrderItemInline. -/
def OrderItemInline.extra : Nat := 0

/-- The inline formset of the order admin admits n line items exactly when n
lies between its min_num and its max_num (framework validation semantics for
an inline declaring both bounds). -/
def OrderItemInline.admits (n : Nat) : Bool :=
  OrderItemInline.min_num ≤ n && n ≤ OrderItemInline.max_num

/-- Helper: the display column says Low exactly on inventory below 10. -/
theorem inventory_status_low_iff (p : Product) :
    ProductAdmin.inventory_status p = "Low" ↔ p.inventory < 10 := by
  unfold ProductAdmin.inventory_status
  by_cases h : p.inventory < 10 <;> simp [h]

/-- C1: the clear_inventory bulk action sets the inventory of every selected
product to exactly 0 and leaves every field of every unselected product
unchanged; rows correspond position by position. -/
theorem clear_inventory_frame (db : List Product) (selected : List Nat) :
    List.Forall₂
      (fun p q =>
        (selected.contains p.id = true → q.inventory = 0) ∧
        (selected.contains p.id = false → q = p))
      db (ProductAdmin.clear_inventory db selected).1 := by
  unfold ProductAdmin.clear_inventory
  rw [List.forall₂_map_right_iff, List.forall₂_same]
  intro p _
  by_cases h : p.id ∈ selected <;> simp [List.contains, h]

/-- C2: the inventory_status display column returns Low exactly when the
inventory of the product is strictly below 10, and OK exactly otherwise. -/
theorem inventory_status_spec (p : Product) :
    (ProductAdmin.inventory_status p = "Low" ↔ p.inventory < 10) ∧
    (ProductAdmin.inventory_status p = "OK" ↔ 10 ≤ p.inventory) := by
  unfold ProductAdmin.inventory_status
  by_cases h : p.inventory < 10 <;> simp [h]
  omega

/-- C3: the Low list filter and the display column agree on every inventory
value: a product lies in the filtered queryset exactly when it lies in the
full queryset and the column classifies it Low. -/
theorem filter_column_consistent (qs : List Product) (p : Product) :
    p ∈ InventoryFilter.effective (some "<10") qs ↔
      p ∈ qs ∧ ProductAdmin.inventory_status p = "Low" := by
  unfold InventoryFilter.effective InventoryFilter.queryset
  simp [List.mem_filter, inventory_status_low_iff]

/-- C5: the clear_inventory message is always recorded at severity
messages.ERROR, on every database and every selection, and its text is the
updated row count followed by the fixed success phrase. -/
theorem clear_inventory_message (db : List Product) (selected : List Nat) :
    (ProductAdmin.clear_inventory db selected).2.2.level = messages.ERROR ∧
    (ProductAdmin.clear_inventory db selected).2.2.text =
      Nat.repr (ProductAdmin.clear_inventory db selected).2.1 ++
        " products were successfully updated." := by
  unfold ProductAdmin.clear_inventory
  refine ⟨rfl, ?_⟩
  simp [toString]

/-- C7: the order item inline admits a number of line items exactly when it
lies between 1 and 10 inclusive. -/
theorem order_items_bounded (n : Nat) :
    OrderItemInline.admits n = true ↔ 1 ≤ n ∧ n ≤ 10 := by
  simp [OrderItemInline.admits, OrderItemInline.min_num, OrderItemInline.max_num]

/-- C9: on every filter value other than the exact string <10, including the
absent value, the queryset method of InventoryFilter returns None, so no
restriction is imposed. -/
theorem inventory_filter_default (value : Option String) (qs : List Product)
    (h : value ≠ some "<10") :
    InventoryFilter.queryset value qs = none := by
  unfold InventoryFilter.queryset
  simp [h]

/-- Witness for C9 at the absent value on an empty queryset. -/
theorem inventory_filter_default_witness :
    InventoryFilter.queryset none [] = none :=
  inventory_filter_default none [] (by decide)

/-- C4: on every database state, the annotated products_count of each
collection row of the admin queryset equals the true number of related
products, and the annotated orders_count of each customer row equals the true
number of related orders. -/
theorem annotated_counts_correct (db : Db) :
    (∀ row ∈ CollectionAdmin.get_queryset db,
      row.2 = true_products_count db row.1) ∧
    (∀ row ∈ CustomerAdmin.get_queryset db,
      row.2 = true_orders_count db row.1) := by
  constructor <;> intro row hrow
  · obtain ⟨c, hc, rfl⟩ := List.mem_map.mp hrow
    simp only [true_products_count, List.filter_map, List.length_map]
    rfl
  · obtain ⟨c, hc, rfl⟩ := List.mem_map.mp hrow
    simp only [true_orders_count, List.filter_map, List.length_map]
    rfl

/-- C6: whenever the event fires with an order among its keyword arguments,
the handler acts unconditionally and its entire effect is the single print of
that order to standard output. -/
theorem on_order_created_prints {α : Type} (o : α) (kwargs : List (String × α))
    (h : kwargs.lookup "order" = some o) :
    on_order_created kwargs = Except.ok [o] := by
  unfold on_order_created
  rw [h]

/-- Witness for C6 on a one-entry kwargs dict. -/
theorem on_order_created_prints_witness :
    on_order_created [("order", 7)] = Except.ok [7] :=
  on_order_created_prints 7 [("order", 7)] (by decide)

/-- C10: when the keyword arguments carry no order entry the handler raises
KeyError, and it returns normally only when an order entry is present, in
which case the output is exactly that order. -/
theorem on_order_created_keyerror {α : Type} (kwargs : List (String × α)) :
    (kwargs.lookup "order" = none →
      on_order_created kwargs = Except.error (PyError.keyError "order")) ∧
    (∀ out, on_order_created kwargs = Except.ok out →
      ∃ o, kwargs.lookup "order" = some o ∧ out = [o]) := by
  unfold on_order_created
  constructor
  · intro h
    rw [h]
  · intro out hout
    cases hl : kwargs.lookup "order" with
    | none => rw [hl] at hout; cases hout
    | some v =>
        rw [hl] at hout
        injection hout with h
        exact ⟨v, rfl, h.symm⟩

/-- Helper: digit characters produced below base ten satisfy isDigit. -/
theorem digitChar_isDigit (m : Nat) (h : m < 10) :
    (Nat.digitChar m).isDigit = true := by
  interval_cases m <;> decide

/-- Helper: toDigitsCore in base ten only emits digit characters. -/
theorem toDigitsCore_digits (fuel : Nat) :
    ∀ (n : Nat) (ds : List Char), (∀ c ∈ ds, c.isDigit = true) →
      ∀ c ∈ Nat.toDigitsCore 10 fuel n ds, c.isDigit = true := by
  induction fuel with
  | zero =>
      intro n ds hds
      simpa [Nat.toDigitsCore] using hds
  | succ fuel ih =>
      intro n ds hds
      have hcons : ∀ c ∈ Nat.digitChar (n % 10) :: ds, c.isDigit = true := by
        intro c hc
        rcases List.mem_cons.mp hc with rfl | hc
        · exact digitChar_isDigit _ (Nat.mod_lt n (by omega))
        · exact hds c hc
      simp only [Nat.toDigitsCore]
      split
      · exact hcons
      · exact ih _ _ hcons

/-- Helper: every character of the decimal representation of a natural number
is a digit. -/
theorem repr_digits (n : Nat) : ∀ c ∈ (Nat.repr n).data, c.isDigit = true := by
  intro c hc
  exact toDigitsCore_digits (n + 1) n [] (by simp) c hc

/-- Helper: folding append over singleton strings rebuilds the string. -/
theorem foldl_append_singleton (l : List Char) :
    ∀ acc : String,
      List.foldl (fun a b => a ++ b) acc (l.map String.singleton) =
        ⟨acc.data ++ l⟩ := by
  induction l with
  | nil =>
      intro acc
      cases acc
      simp
  | cons c l ih =>
      intro acc
      simp only [List.map_cons, List.foldl_cons]
      rw [ih]
      cases acc
      simp [String.append, String.singleton]

/-- Helper: quote_plus is the identity on strings of digit characters. -/
theorem quote_plus_digits (s : String) (h : ∀ c ∈ s.data, c.isDigit = true) :
    quote_plus s = s := by
  have hmap : s.data.map quote_plus_char = s.data.map String.singleton := by
    refine List.map_congr_left (fun c hc => ?_)
    have ha : c.isAlphanum = true := by
      simp [Char.isAlphanum, h c hc]
    simp [quote_plus_char, ha]
  unfold quote_plus String.join
  rw [hmap, foldl_append_singleton]
  cases s
  simp

/-- Helper: quote_plus leaves a decimal number representation unchanged. -/
theorem quote_plus_repr (n : Nat) : quote_plus (Nat.repr n) = Nat.repr n :=
  quote_plus_digits _ (repr_digits n)

/-- Helper: the urlencoded collection_id query pair. -/
theorem urlencode_collection_id (i : Nat) :
    urlencode [("collection_id", Nat.repr i)] = "collection_id=" ++ Nat.repr i := by
  show quote_plus "collection_id" ++ "=" ++ quote_plus (Nat.repr i) = _
  rw [quote_plus_repr]
  have hk : quote_plus "collection_id" ++ "=" = "collection_id=" := by decide
  rw [hk]

/-- Helper: the urlencoded customer_id query pair. -/
theorem urlencode_customer_id (i : Nat) :
    urlencode [("customer_id", Nat.repr i)] = "customer_id=" ++ Nat.repr i := by
  show quote_plus "customer_id" ++ "=" ++ quote_plus (Nat.repr i) = _
  rw [quote_plus_repr]
  have hk : quote_plus "customer_id" ++ "=" = "customer_id=" := by decide
  rw [hk]

/-- C8: the products_count column renders a link to the product changelist
with query string collection_id set to the id of the collection, and the
orders_count column renders a link to the order changelist with query string
customer_id set to the id of the customer; the visible text of each link is
the annotated count. -/
theorem count_columns_link (c : Collection) (cu : Customer) (n m : Nat) :
    CollectionAdmin.products_count (c, n) =
      format_html_link
        (reverse_store_product_changelist ++ "?" ++
          ("collection_id=" ++ Nat.repr c.id))
        (Nat.repr n) ∧
    CustomerAdmin.orders_count (cu, m) =
      format_html_link
        (reverse_store_order_changelist ++ "?" ++
          ("customer_id=" ++ Nat.repr cu.id))
        (Nat.repr m) := by
  constructor
  · unfold CollectionAdmin.products_count
    rw [urlencode_collection_id]
  · unfold CustomerAdmin.orders_count
    rw [urlencode_customer_id]
